import Mathlib

/-!
Verification of the autoTrade trading-engine specification against the
repository's sources.  The repository ships the dashboard frontend
(src/frontend, src/unnamed) and the engine documentation
(src/TRADING_GUIDE.md, src/backend/schema_documentation.md); the engine
itself (RiskManager, OrderExecutor, PortfolioLedger, PositionMonitor,
TradingSessionController) is not present under src/, so those components
are modelled from the specification, while the frontend behaviour
(api.js interceptors, request bodies, status rendering) is embedded
directly from the JavaScript sources.

All money, price and quantity arithmetic is modelled over ℚ.
-/

/-- Side of an open position. -/
inductive PosSide where
  | long
  | short
deriving Repr, DecidableEq

/-- Modelled from the spec: strategy risk settings (§3 Data Model); the
RiskManager source is not under src/.  Fields follow TRADING_GUIDE.md
"리스크 관리 설정". -/
structure RiskSettings where
  maxPositionFraction : ℚ
  maxRiskPerTrade : ℚ
  stopLossFraction : ℚ
  takeProfitFraction : ℚ
deriving Repr, DecidableEq

/-- Modelled from the spec: engine default risk settings, matching
TRADING_GUIDE.md (max_position_size = 0.3, max_risk_per_trade = 0.02,
stop_loss_pct = 0.05, take_profit_pct = 0.10). -/
def defaultRiskSettings : RiskSettings :=
  { maxPositionFraction := 3/10
    maxRiskPerTrade := 1/50
    stopLossFraction := 1/20
    takeProfitFraction := 1/10 }

/-- Clamp a confidence score to [0,1]. -/
def clamp01 (x : ℚ) : ℚ := max 0 (min 1 x)

/-- Modelled from the spec: budget for a new position,
`cash × maxPositionFraction × confidence` with confidence clamped
(§4.1 RiskManager; RiskManager source not under src/). -/
def rawBudget (cash confidence : ℚ) (s : RiskSettings) : ℚ :=
  cash * s.maxPositionFraction * clamp01 confidence

/-- Modelled from the spec: risk-cap scaling of the budget — if
`budget × stopLossFraction > cash × maxRiskPerTrade`, scale the budget
down to satisfy the cap (§4.1). -/
def cappedBudget (cash confidence : ℚ) (s : RiskSettings) : ℚ :=
  let b := rawBudget cash confidence s
  if b * s.stopLossFraction ≤ cash * s.maxRiskPerTrade then b
  else cash * s.maxRiskPerTrade / s.stopLossFraction

/-- Stop-loss price: `entry × (1 − stopLossFraction)` for a long
position, inverse for short (§4.1). -/
def stopLossPrice (side : PosSide) (entry slf : ℚ) : ℚ :=
  match side with
  | .long => entry * (1 - slf)
  | .short => entry * (1 + slf)

/-- Take-profit price: `entry × (1 + takeProfitFraction)` for a long
position, inverse for short (§4.1). -/
def takeProfitPrice (side : PosSide) (entry tpf : ℚ) : ℚ :=
  match side with
  | .long => entry * (1 + tpf)
  | .short => entry * (1 - tpf)

/-- Modelled from the spec: `sizeOrder(cash, confidence, settings)`
returns an order quantity and the exit thresholds at the given entry
price (§4.1 RiskManager; source not under src/).  Quantity is the
risk-capped budget divided by the entry price. -/
def sizeOrder (cash confidence price : ℚ) (side : PosSide) (s : RiskSettings) :
    ℚ × ℚ × ℚ :=
  (cappedBudget cash confidence s / price,
   stopLossPrice side price s.stopLossFraction,
   takeProfitPrice side price s.takeProfitFraction)

/-- Order status, per the spec's Order data model. -/
inductive OrderStatus where
  | pending
  | filled
  | partFilled
  | cancelled
  | error
deriving Repr, DecidableEq

/-- Execution result exposed by both OrderExecutor variants. -/
structure FillResult where
  status : OrderStatus
  filledQuantity : ℚ
  avgFillPrice : ℚ
  fee : ℚ
deriving Repr, DecidableEq

/-- Taker fee rate, 0.25% (TRADING_GUIDE.md "커미션 계산"). -/
def takerFee : ℚ := 1/400

/-- Modelled from the spec: the paper OrderExecutor.  `place` fills
immediately and fully at the provided reference price with
fee = quantity × price × takerFee; it fails (returns none) exactly on
invalid input, i.e. non-positive quantity or price (§4.2; OrderExecutor
source not under src/). -/
def paperPlace (quantity price : ℚ) : Option FillResult :=
  if quantity ≤ 0 ∨ price ≤ 0 then none
  else some { status := .filled
              filledQuantity := quantity
              avgFillPrice := price
              fee := quantity * price * takerFee }

lemma clamp01_nonneg (x : ℚ) : 0 ≤ clamp01 x := le_max_left 0 _

lemma clamp01_le_one (x : ℚ) : clamp01 x ≤ 1 := by
  unfold clamp01
  rcases le_total x 1 with h | h
  · simp [min_eq_right h]
    rcases le_total 0 x with h0 | h0 <;> simp [max_eq_right, max_eq_left, h, h0]
  · simp [min_eq_left h]

lemma defaultRiskSettings_slf : defaultRiskSettings.stopLossFraction = 1/20 := rfl

lemma defaultRiskSettings_mpf : defaultRiskSettings.maxPositionFraction = 3/10 := rfl

lemma defaultRiskSettings_mrpt : defaultRiskSettings.maxRiskPerTrade = 1/50 := rfl

lemma cappedBudget_default (C k : ℚ) (hC : 0 < C) :
    cappedBudget C k defaultRiskSettings = C * (3/10) * clamp01 k := by
  have h0 := clamp01_nonneg k
  have h1 := clamp01_le_one k
  have hcond : rawBudget C k defaultRiskSettings *
      defaultRiskSettings.stopLossFraction ≤
      C * defaultRiskSettings.maxRiskPerTrade := by
    unfold rawBudget
    rw [defaultRiskSettings_slf, defaultRiskSettings_mpf, defaultRiskSettings_mrpt]
    nlinarith
  unfold cappedBudget
  rw [if_pos hcond]
  unfold rawBudget
  rw [defaultRiskSettings_mpf]

/-- C1: for every cash C > 0 and confidence k ∈ [0,1], the sized order
satisfies quantity × price ≤ C × 0.30, and the implied loss at the
stop-loss distance, quantity × (price − stopLossPrice), is ≤ C × 0.02. -/
theorem sizeOrder_risk_bound (C k price : ℚ) (hC : 0 < C) (hk0 : 0 ≤ k)
    (hk1 : k ≤ 1) :
    (sizeOrder C k price PosSide.long defaultRiskSettings).1 * price ≤ C * (3/10) ∧
    (sizeOrder C k price PosSide.long defaultRiskSettings).1 *
      (price - (sizeOrder C k price PosSide.long defaultRiskSettings).2.1) ≤
      C * (1/50) := by
  have hclamp : clamp01 k = k := by
    unfold clamp01
    rw [min_eq_right hk1, max_eq_right hk0]
  have hbudget : cappedBudget C k defaultRiskSettings = C * (3/10) * k := by
    rw [cappedBudget_default C k hC, hclamp]
  simp only [sizeOrder, stopLossPrice, hbudget, defaultRiskSettings_slf]
  rcases eq_or_ne price 0 with hp | hp
  · subst hp
    constructor <;> simp <;> positivity
  · have hqp : C * (3/10) * k / price * price = C * (3/10) * k := by
      field_simp
      ring
    constructor
    · rw [hqp]; nlinarith
    · have hdist : price - price * (1 - 1/20) = price * (1/20) := by ring
      rw [hdist]
      have h2 : C * (3/10) * k / price * (price * (1/20)) =
          C * (3/10) * k * (1/20) := by
        field_simp; ring
      rw [h2]; nlinarith

/-- Witness for C1 at C = 1000, k = 1/2, price = 10. -/
theorem sizeOrder_risk_bound_witness :
    (sizeOrder 1000 (1/2) 10 PosSide.long defaultRiskSettings).1 * 10 ≤
      1000 * (3/10) ∧
    (sizeOrder 1000 (1/2) 10 PosSide.long defaultRiskSettings).1 *
      (10 - (sizeOrder 1000 (1/2) 10 PosSide.long defaultRiskSettings).2.1) ≤
      1000 * (1/50) :=
  sizeOrder_risk_bound 1000 (1/2) 10 (by norm_num) (by norm_num) (by norm_num)

/-- C4: the paper executor fills every valid order immediately and fully
at the reference price with fee = quantity × price × 0.0025, and fails
iff quantity ≤ 0 or price ≤ 0; on failure no fill is produced. -/
theorem paperPlace_spec (q p : ℚ) :
    (paperPlace q p = none ↔ q ≤ 0 ∨ p ≤ 0) ∧
    (0 < q → 0 < p →
      paperPlace q p = some { status := .filled, filledQuantity := q,
                              avgFillPrice := p, fee := q * p * (1/400) }) := by
  constructor
  · unfold paperPlace
    constructor
    · intro h
      by_contra hc
      push_neg at hc
      rw [if_neg (by push_neg; exact ⟨hc.1, hc.2⟩)] at h
      exact Option.some_ne_none _ h
    · intro h
      rw [if_pos h]
  · intro hq hp
    unfold paperPlace
    rw [if_neg (by push_neg; exact ⟨hq, hp⟩)]
    simp [takerFee]

/-- Witness for C4 at quantity 2, price 3. -/
theorem paperPlace_spec_witness :
    paperPlace 2 3 = some { status := .filled, filledQuantity := 2,
                            avgFillPrice := 3, fee := 2 * 3 * (1/400) } :=
  (paperPlace_spec 2 3).2 (by norm_num) (by norm_num)

/-- C5: with cash 1,000,000, confidence 0.8 and price 100,000 in paper
mode, the budget is 240,000, the quantity 2.4, and the immediate paper
fill carries fee 600. -/
theorem paper_buy_example :
    cappedBudget 1000000 (8/10) defaultRiskSettings = 240000 ∧
    (sizeOrder 1000000 (8/10) 100000 PosSide.long defaultRiskSettings).1 =
      24/10 ∧
    paperPlace (24/10) 100000 =
      some { status := .filled, filledQuantity := 24/10,
             avgFillPrice := 100000, fee := 600 } := by
  have hb : cappedBudget 1000000 (8/10) defaultRiskSettings = 240000 := by
    rw [cappedBudget_default 1000000 (8/10) (by norm_num)]
    norm_num [clamp01]
  refine ⟨hb, ?_, ?_⟩
  · simp only [sizeOrder, hb]
    norm_num
  · unfold paperPlace
    rw [if_neg (by norm_num)]
    norm_num [takerFee]

/-- C7: the engine default risk settings are stopLossFraction = 0.05 and
takeProfitFraction = 0.10, and for any entry price the stop-loss price
is entry × (1 − 0.05) for a long position and entry × (1 + 0.05) for a
short one (take-profit inverse). -/
theorem default_risk_settings_spec :
    defaultRiskSettings.stopLossFraction = 1/20 ∧
    defaultRiskSettings.takeProfitFraction = 1/10 ∧
    (∀ e : ℚ,
      stopLossPrice PosSide.long e defaultRiskSettings.stopLossFraction =
        e * (1 - 1/20) ∧
      stopLossPrice PosSide.short e defaultRiskSettings.stopLossFraction =
        e * (1 + 1/20) ∧
      takeProfitPrice PosSide.long e defaultRiskSettings.takeProfitFraction =
        e * (1 + 1/10) ∧
      (sizeOrder 1 1 e PosSide.long defaultRiskSettings).2.1 =
        e * (1 - 1/20)) := by
  refine ⟨rfl, rfl, fun e => ⟨rfl, rfl, rfl, rfl⟩⟩

/-- Open position, per the spec's Position data model and the
trading-status payload in TRADING_GUIDE.md (amount, avg_price, side;
currentPrice is the latest mark used for unrealized PnL). -/
structure Position where
  symbol : String
  quantity : ℚ
  entryPrice : ℚ
  currentPrice : ℚ
deriving Repr, DecidableEq

/-- Coin value of the open positions, `Σ quantity × currentPrice` —
the `portfolio_value` shown next to cash by the Monitoring page
(src/unnamed/part_002, 총 자산 Statistic). -/
def portfolioValue (ps : List Position) : ℚ :=
  (ps.map (fun p => p.quantity * p.currentPrice)).sum

/-- Modelled from the spec: the buy half of PortfolioLedger.applyFill
(§4.3; PortfolioLedger source not under src/).  Upserts the symbol's
position (weighted-average entry on increase, mark at the fill price)
and reports the resulting change of coin value so the ledger can keep
its running total-assets figure. -/
def buyUpd (s : String) (q pr : ℚ) : List Position → List Position × ℚ
  | [] => ([{ symbol := s, quantity := q, entryPrice := pr, currentPrice := pr }],
           q * pr)
  | p :: ps =>
    if p.symbol = s then
      ({ symbol := s, quantity := p.quantity + q,
         entryPrice := (p.quantity * p.entryPrice + q * pr) / (p.quantity + q),
         currentPrice := pr } :: ps,
       q * pr + p.quantity * (pr - p.currentPrice))
    else
      let r := buyUpd s q pr ps
      (p :: r.1, r.2)

/-- Modelled from the spec: the sell half of PortfolioLedger.applyFill
(§4.3).  Fails (none) when no position with the symbol holds at least
the sold quantity; a full sale closes the position.  Also reports the
change of coin value. -/
def sellUpd (s : String) (q pr : ℚ) : List Position → Option (List Position × ℚ)
  | [] => none
  | p :: ps =>
    if p.symbol = s then
      if q ≤ p.quantity then
        some ((if p.quantity = q then ps
               else { symbol := s, quantity := p.quantity - q,
                      entryPrice := p.entryPrice, currentPrice := pr } :: ps),
              (p.quantity - q) * pr - p.quantity * p.currentPrice)
      else none
    else (sellUpd s q pr ps).map (fun r => (p :: r.1, r.2))

/-- Modelled from the spec: marking one symbol to a new market price
during a monitor tick (§4.4), reporting the change of coin value. -/
def markUpd (s : String) (pr : ℚ) : List Position → List Position × ℚ
  | [] => ([], 0)
  | p :: ps =>
    if p.symbol = s then
      ({ symbol := p.symbol, quantity := p.quantity,
         entryPrice := p.entryPrice, currentPrice := pr } :: ps,
       p.quantity * (pr - p.currentPrice))
    else
      let r := markUpd s pr ps
      (p :: r.1, r.2)

/-- Modelled from the spec: PortfolioLedger state — initial capital,
cash, open positions, trade count, and the running total-assets figure
reported as `total_assets` to the dashboard (§4.3; source not under
src/). -/
structure Ledger where
  initialCapital : ℚ
  cash : ℚ
  positions : List Position
  tradeCount : Nat
  totalAssets : ℚ
deriving Repr, DecidableEq

/-- Fresh ledger for a session with the given initial capital. -/
def initialLedger (c : ℚ) : Ledger :=
  { initialCapital := c, cash := c, positions := [], tradeCount := 0,
    totalAssets := c }

/-- Order side. -/
inductive Side where
  | buy
  | sell
deriving Repr, DecidableEq

/-- Modelled from the spec: `applyFill` — atomically debit/credit cash
(minus fee), upsert the position, count the trade, and maintain the
running total-assets figure (§4.3).  Validation failures (non-positive
quantity or price, negative fee, insufficient cash on buy, selling more
than held) leave the ledger untouched (§7). -/
def applyFill (L : Ledger) (side : Side) (sym : String) (q pr fee : ℚ) :
    Option Ledger :=
  if q ≤ 0 ∨ pr ≤ 0 ∨ fee < 0 then none
  else
    match side with
    | .buy =>
      if L.cash < q * pr + fee then none
      else
        let r := buyUpd sym q pr L.positions
        some { L with cash := L.cash - q * pr - fee
                      positions := r.1
                      tradeCount := L.tradeCount + 1
                      totalAssets := L.totalAssets - q * pr - fee + r.2 }
    | .sell =>
      match sellUpd sym q pr L.positions with
      | none => none
      | some r =>
        some { L with cash := L.cash + q * pr - fee
                      positions := r.1
                      tradeCount := L.tradeCount + 1
                      totalAssets := L.totalAssets + q * pr - fee + r.2 }

/-- Modelled from the spec: the monitor tick marking a symbol to the
latest market price (§4.4), keeping the total-assets figure current. -/
def markPrice (L : Ledger) (sym : String) (pr : ℚ) : Ledger :=
  let r := markUpd sym pr L.positions
  { L with positions := r.1, totalAssets := L.totalAssets + r.2 }

/-- A mutation of the PortfolioLedger: a terminal fill applied by
either loop, or a mark-to-market price update. -/
inductive Mutation where
  | fill (side : Side) (sym : String) (q pr fee : ℚ)
  | mark (sym : String) (pr : ℚ)

/-- Apply one mutation. -/
def applyMutation (L : Ledger) : Mutation → Option Ledger
  | .fill side sym q pr fee => applyFill L side sym q pr fee
  | .mark sym pr => some (markPrice L sym pr)

/-- The PortfolioLedger invariant: cash plus the coin value of the open
positions equals the reported total assets, and no position has
negative quantity. -/
def LedgerInv (L : Ledger) : Prop :=
  L.cash + portfolioValue L.positions = L.totalAssets ∧
  ∀ p ∈ L.positions, 0 ≤ p.quantity

lemma portfolioValue_nil : portfolioValue [] = 0 := rfl

lemma portfolioValue_cons (p : Position) (ps : List Position) :
    portfolioValue (p :: ps) = p.quantity * p.currentPrice + portfolioValue ps := by
  simp [portfolioValue]

lemma portfolioValue_buyUpd (s : String) (q pr : ℚ) (ps : List Position) :
    portfolioValue (buyUpd s q pr ps).1 = portfolioValue ps + (buyUpd s q pr ps).2 := by
  induction ps with
  | nil => simp [buyUpd, portfolioValue]
  | cons p ps ih =>
    by_cases h : p.symbol = s
    · simp only [buyUpd, if_pos h, portfolioValue_cons]
      ring
    · simp only [buyUpd, if_neg h, portfolioValue_cons]
      rw [ih]
      ring

lemma buyUpd_nonneg (s : String) (q pr : ℚ) (hq : 0 ≤ q) (ps : List Position)
    (hps : ∀ p ∈ ps, 0 ≤ p.quantity) :
    ∀ p ∈ (buyUpd s q pr ps).1, 0 ≤ p.quantity := by
  induction ps with
  | nil =>
    intro p hp
    simp only [buyUpd, List.mem_singleton] at hp
    subst hp
    exact hq
  | cons p0 ps ih =>
    intro p hp
    by_cases h : p0.symbol = s
    · simp only [buyUpd, if_pos h, List.mem_cons] at hp
      rcases hp with hp | hp
      · subst hp
        have := hps p0 (List.mem_cons_self p0 ps)
        simpa using add_nonneg this hq
      · exact hps p (List.mem_cons_of_mem p0 hp)
    · simp only [buyUpd, if_neg h, List.mem_cons] at hp
      rcases hp with hp | hp
      · subst hp
        exact hps p (List.mem_cons_self p ps)
      · exact ih (fun x hx => hps x (List.mem_cons_of_mem p0 hx)) p hp

lemma portfolioValue_sellUpd (s : String) (q pr : ℚ) (ps : List Position)
    (ps' : List Position) (d : ℚ) (h : sellUpd s q pr ps = some (ps', d)) :
    portfolioValue ps' = portfolioValue ps + d := by
  induction ps generalizing ps' d with
  | nil => simp [sellUpd] at h
  | cons p ps ih =>
    by_cases hsym : p.symbol = s
    · simp only [sellUpd, if_pos hsym] at h
      by_cases hle : q ≤ p.quantity
      · rw [if_pos hle] at h
        simp only [Option.some.injEq, Prod.mk.injEq] at h
        obtain ⟨h1, h2⟩ := h
        subst h2
        by_cases heq : p.quantity = q
        · rw [if_pos heq] at h1
          subst h1
          rw [portfolioValue_cons, heq]
          ring
        · rw [if_neg heq] at h1
          subst h1
          rw [portfolioValue_cons, portfolioValue_cons]
          dsimp only
          ring
      · rw [if_neg hle] at h
        exact absurd h (by simp)
    · simp only [sellUpd, if_neg hsym, Option.map_eq_some'] at h
      obtain ⟨⟨ps0, d0⟩, hrec, heq⟩ := h
      simp only [Prod.mk.injEq] at heq
      obtain ⟨h1, h2⟩ := heq
      subst h1
      subst h2
      rw [portfolioValue_cons, portfolioValue_cons, ih ps0 d0 hrec]
      ring

lemma sellUpd_nonneg (s : String) (q pr : ℚ) (ps : List Position)
    (hps : ∀ p ∈ ps, 0 ≤ p.quantity) (ps' : List Position) (d : ℚ)
    (h : sellUpd s q pr ps = some (ps', d)) :
    ∀ p ∈ ps', 0 ≤ p.quantity := by
  induction ps generalizing ps' d with
  | nil => simp [sellUpd] at h
  | cons p ps ih =>
    by_cases hsym : p.symbol = s
    · simp only [sellUpd, if_pos hsym] at h
      by_cases hle : q ≤ p.quantity
      · rw [if_pos hle] at h
        simp only [Option.some.injEq, Prod.mk.injEq] at h
        obtain ⟨h1, h2⟩ := h
        by_cases heq : p.quantity = q
        · rw [if_pos heq] at h1
          subst h1
          exact fun x hx => hps x (List.mem_cons_of_mem p hx)
        · rw [if_neg heq] at h1
          subst h1
          intro x hx
          rcases List.mem_cons.mp hx with hx | hx
          · subst hx
            dsimp only
            linarith [hps p (List.mem_cons_self p ps)]
          · exact hps x (List.mem_cons_of_mem p hx)
      · rw [if_neg hle] at h
        exact absurd h (by simp)
    · simp only [sellUpd, if_neg hsym, Option.map_eq_some'] at h
      obtain ⟨⟨ps0, d0⟩, hrec, heq⟩ := h
      simp only [Prod.mk.injEq] at heq
      obtain ⟨h1, h2⟩ := heq
      subst h1
      intro x hx
      rcases List.mem_cons.mp hx with hx | hx
      · subst hx
        exact hps x (List.mem_cons_self x ps)
      · exact ih (fun y hy => hps y (List.mem_cons_of_mem p hy)) ps0 d0 hrec x hx

lemma portfolioValue_markUpd (s : String) (pr : ℚ) (ps : List Position) :
    portfolioValue (markUpd s pr ps).1 = portfolioValue ps + (markUpd s pr ps).2 := by
  induction ps with
  | nil => simp [markUpd, portfolioValue]
  | cons p ps ih =>
    by_cases h : p.symbol = s
    · simp only [markUpd, if_pos h, portfolioValue_cons]
      ring
    · simp only [markUpd, if_neg h, portfolioValue_cons]
      rw [ih]
      ring

lemma markUpd_nonneg (s : String) (pr : ℚ) (ps : List Position)
    (hps : ∀ p ∈ ps, 0 ≤ p.quantity) :
    ∀ p ∈ (markUpd s pr ps).1, 0 ≤ p.quantity := by
  induction ps with
  | nil =>
    intro p hp
    simp [markUpd] at hp
  | cons p0 ps ih =>
    intro p hp
    by_cases h : p0.symbol = s
    · simp only [markUpd, if_pos h, List.mem_cons] at hp
      rcases hp with hp | hp
      · subst hp
        exact hps p0 (List.mem_cons_self p0 ps)
      · exact hps p (List.mem_cons_of_mem p0 hp)
    · simp only [markUpd, if_neg h, List.mem_cons] at hp
      rcases hp with hp | hp
      · subst hp
        exact hps p (List.mem_cons_self p ps)
      · exact ih (fun x hx => hps x (List.mem_cons_of_mem p0 hx)) p hp

/-- C2: a fresh ledger satisfies the invariant, and every successful
mutation of the PortfolioLedger (a terminal fill or a mark-to-market
update) preserves it: cash + Σ(quantity × currentPrice) = totalAssets,
and no position ever has negative quantity. -/
theorem ledger_invariant (c : ℚ) (L : Ledger) (m : Mutation) (L' : Ledger)
    (hL : LedgerInv L) (h : applyMutation L m = some L') :
    LedgerInv (initialLedger c) ∧ LedgerInv L' := by
  obtain ⟨hsum, hpos⟩ := hL
  refine ⟨⟨by simp [initialLedger, portfolioValue], by simp [initialLedger]⟩, ?_⟩
  cases m with
  | mark sym pr =>
    simp only [applyMutation, markPrice, Option.some.injEq] at h
    subst h
    constructor
    · simp only
      rw [portfolioValue_markUpd]
      linarith
    · exact markUpd_nonneg sym pr L.positions hpos
  | fill side sym q pr fee =>
    simp only [applyMutation, applyFill] at h
    by_cases hval : q ≤ 0 ∨ pr ≤ 0 ∨ fee < 0
    · rw [if_pos hval] at h
      exact absurd h (by simp)
    · rw [if_neg hval] at h
      push_neg at hval
      obtain ⟨hq, hpr, hfee⟩ := hval
      cases side with
      | buy =>
        by_cases hcash : L.cash < q * pr + fee
        · rw [if_pos hcash] at h
          exact absurd h (by simp)
        · rw [if_neg hcash] at h
          simp only [Option.some.injEq] at h
          subst h
          constructor
          · simp only
            rw [portfolioValue_buyUpd]
            linarith
          · exact buyUpd_nonneg sym q pr (le_of_lt hq) L.positions hpos
      | sell =>
        cases hsell : sellUpd sym q pr L.positions with
        | none =>
          rw [hsell] at h
          exact absurd h (by simp)
        | some r =>
          rw [hsell] at h
          simp only [Option.some.injEq] at h
          subst h
          constructor
          · simp only
            rw [portfolioValue_sellUpd sym q pr L.positions r.1 r.2 hsell]
            linarith
          · exact sellUpd_nonneg sym q pr L.positions hpos r.1 r.2 hsell

/-- Witness for C2: buying 1 BTC at price 10 with fee 1 from a fresh
ledger with capital 100 preserves the invariant. -/
theorem ledger_invariant_witness :
    LedgerInv (initialLedger 100) ∧
    LedgerInv { initialCapital := 100, cash := 89,
                positions := [{ symbol := "BTC", quantity := 1,
                                entryPrice := 10, currentPrice := 10 }],
                tradeCount := 1, totalAssets := 99 } :=
  ledger_invariant 100 (initialLedger 100)
    (Mutation.fill Side.buy "BTC" 1 10 1)
    { initialCapital := 100, cash := 89,
      positions := [{ symbol := "BTC", quantity := 1,
                      entryPrice := 10, currentPrice := 10 }],
      tradeCount := 1, totalAssets := 99 }
    (by constructor <;> simp [initialLedger, portfolioValue])
    (by norm_num [applyMutation, applyFill, buyUpd, initialLedger])

/-- TradingSessionController states (§4.5). -/
inductive TState where
  | IDLE
  | ACTIVE
  | STOPPING
  | STOPPED
deriving Repr, DecidableEq

/-- Result of `stopTrading()`: `NotActive` when no session is running,
otherwise the final summary (final capital, total PnL, trade count). -/
inductive StopResult where
  | notActive
  | summary (finalCapital totalPnl : ℚ) (totalTrades : Nat)
deriving Repr, DecidableEq

/-- Modelled from the spec: cash proceeds of force-closing every open
position at the current market price, taker fee deducted (§4.5;
TradingSessionController source not under src/). -/
def closeProceeds (px : String → ℚ) : List Position → ℚ
  | [] => 0
  | p :: ps => p.quantity * px p.symbol * (1 - takerFee) + closeProceeds px ps

/-- A trading session: controller state plus the ledger it owns. -/
structure Session where
  state : TState
  ledger : Ledger

/-- Modelled from the spec: `stopTrading()` — fails with `NotActive`
when the state is IDLE or STOPPED and mutates nothing; otherwise
force-closes all open positions at current market prices, transitions
to STOPPED and returns the final summary (§4.5; source not under
src/). -/
def stopTrading (px : String → ℚ) (s : Session) : StopResult × Session :=
  match s.state with
  | .IDLE => (.notActive, s)
  | .STOPPED => (.notActive, s)
  | _ =>
    let c := s.ledger.cash + closeProceeds px s.ledger.positions
    let L : Ledger :=
      { initialCapital := s.ledger.initialCapital
        cash := c
        positions := []
        tradeCount := s.ledger.tradeCount + s.ledger.positions.length
        totalAssets := c }
    (.summary c (c - s.ledger.initialCapital) L.tradeCount,
     { state := .STOPPED, ledger := L })

/-- Response body of POST /trading/stop. -/
structure StopResponse where
  success : Bool
  message : String
  finalCapital : Option ℚ
  totalPnl : Option ℚ
  totalTrades : Option Nat
deriving Repr, DecidableEq

/-- Modelled from the spec: the POST /trading/stop handler — wraps
`stopTrading()`; when the session is already stopped it still answers
success, with no trading result and no further mutation (§6; the
backend route source is not under src/, only its caller
aiRecommendationAPI.stopAutoTrading in src/frontend/src/services/api.js). -/
def stopEndpoint (px : String → ℚ) (s : Session) : StopResponse × Session :=
  match stopTrading px s with
  | (.notActive, s1) =>
    ({ success := true, message := "no active trading session",
       finalCapital := none, totalPnl := none, totalTrades := none }, s1)
  | (.summary c p n, s1) =>
    ({ success := true, message := "trading stopped",
       finalCapital := some c, totalPnl := some p, totalTrades := some n }, s1)

/-- C3: from an ACTIVE or STOPPING session, the first `stopTrading()`
force-closes every open position and reaches STOPPED; the second call
returns `NotActive` and mutates nothing, so the force-close runs
exactly once; the HTTP stop endpoint is idempotent — already stopped,
it answers success with no trading result and no mutation — and
`stopTrading()` returns `NotActive` exactly when the state is IDLE or
STOPPED. -/
theorem stop_trading_idempotent (px : String → ℚ) (s : Session)
    (h : s.state = TState.ACTIVE ∨ s.state = TState.STOPPING) :
    (stopTrading px s).2.state = TState.STOPPED ∧
    (stopTrading px s).2.ledger.positions = [] ∧
    (∃ c n, (stopTrading px s).1 = StopResult.summary c
        (c - s.ledger.initialCapital) n) ∧
    (stopTrading px (stopTrading px s).2).1 = StopResult.notActive ∧
    (stopTrading px (stopTrading px s).2).2 = (stopTrading px s).2 ∧
    (stopEndpoint px (stopTrading px s).2).1.success = true ∧
    (stopEndpoint px (stopTrading px s).2).1.finalCapital = none ∧
    (stopEndpoint px (stopTrading px s).2).2 = (stopTrading px s).2 ∧
    (∀ t : Session, (stopTrading px t).1 = StopResult.notActive ↔
      (t.state = TState.IDLE ∨ t.state = TState.STOPPED)) := by
  have hrun : stopTrading px s =
      (StopResult.summary (s.ledger.cash + closeProceeds px s.ledger.positions)
        (s.ledger.cash + closeProceeds px s.ledger.positions -
          s.ledger.initialCapital)
        (s.ledger.tradeCount + s.ledger.positions.length),
       { state := .STOPPED,
         ledger :=
          { initialCapital := s.ledger.initialCapital
            cash := s.ledger.cash + closeProceeds px s.ledger.positions
            positions := []
            tradeCount := s.ledger.tradeCount + s.ledger.positions.length
            totalAssets := s.ledger.cash + closeProceeds px s.ledger.positions } }) := by
    rcases h with h | h <;> · unfold stopTrading; rw [h]
  have hnot : ∀ t : Session, (stopTrading px t).1 = StopResult.notActive ↔
      (t.state = TState.IDLE ∨ t.state = TState.STOPPED) := by
    intro t
    unfold stopTrading
    cases ht : t.state <;> simp [ht]
  rw [hrun]
  refine ⟨rfl, rfl, ⟨_, _, rfl⟩, ?_, ?_, ?_, ?_, ?_, hnot⟩
  · unfold stopTrading
    rfl
  · unfold stopTrading
    rfl
  · unfold stopEndpoint stopTrading
    rfl
  · unfold stopEndpoint stopTrading
    rfl
  · unfold stopEndpoint stopTrading
    rfl

/-- Witness for C3: an active session holding one BTC position, with
the market at 10. -/
theorem stop_trading_idempotent_witness :
    ((stopTrading (fun _ => 10)
        { state := TState.ACTIVE,
          ledger := { initialCapital := 100, cash := 89,
                      positions := [{ symbol := "BTC", quantity := 1,
                                      entryPrice := 10, currentPrice := 10 }],
                      tradeCount := 1, totalAssets := 99 } }).2.state =
      TState.STOPPED) ∧
    ((stopTrading (fun _ => 10)
        (stopTrading (fun _ => 10)
          { state := TState.ACTIVE,
            ledger := { initialCapital := 100, cash := 89,
                        positions := [{ symbol := "BTC", quantity := 1,
                                        entryPrice := 10, currentPrice := 10 }],
                        tradeCount := 1, totalAssets := 99 } }).2).1 =
      StopResult.notActive) := by
  have h := stop_trading_idempotent (fun _ => 10)
    { state := TState.ACTIVE,
      ledger := { initialCapital := 100, cash := 89,
                  positions := [{ symbol := "BTC", quantity := 1,
                                  entryPrice := 10, currentPrice := 10 }],
                  tradeCount := 1, totalAssets := 99 } }
    (Or.inl rfl)
  exact ⟨h.1, h.2.2.2.1⟩

/-- Reason for an automatic close requested by the PositionMonitor. -/
inductive CloseReason where
  | stop_loss
  | take_profit
deriving Repr, DecidableEq

/-- Modelled from the spec: sign-adjusted fractional PnL of a position
against its entry price (§4.4; PositionMonitor source not under src/). -/
def pnlFraction (side : PosSide) (entry current : ℚ) : ℚ :=
  match side with
  | .long => (current - entry) / entry
  | .short => (entry - current) / entry

/-- Modelled from the spec: exit-rule evaluation for one monitor tick —
stop-loss checked first, so a tie (both thresholds breached) favors
stop-loss (§4.4). -/
def evalExit (pnl slf tpf : ℚ) : Option CloseReason :=
  if pnl ≤ -slf then some .stop_loss
  else if tpf ≤ pnl then some .take_profit
  else none

/-- Modelled from the spec: evaluation of one open position on a
monitor tick at the given current price (§4.4). -/
def checkPosition (current : ℚ) (side : PosSide) (entry : ℚ)
    (s : RiskSettings) : Option CloseReason :=
  evalExit (pnlFraction side entry current) s.stopLossFraction s.takeProfitFraction

/-- C6: on a monitor tick, a position whose pnlFraction is ≤
−stopLossFraction is closed with reason stop_loss, one whose
pnlFraction is ≥ takeProfitFraction (and above the stop-loss threshold)
is closed with reason take_profit, and when both thresholds are
breached simultaneously the reason is stop_loss. -/
theorem monitor_exit_rules (current entry : ℚ) (side : PosSide)
    (s : RiskSettings) :
    (pnlFraction side entry current ≤ -s.stopLossFraction →
      checkPosition current side entry s = some CloseReason.stop_loss) ∧
    (s.takeProfitFraction ≤ pnlFraction side entry current →
      -s.stopLossFraction < pnlFraction side entry current →
      checkPosition current side entry s = some CloseReason.take_profit) ∧
    (pnlFraction side entry current ≤ -s.stopLossFraction →
      s.takeProfitFraction ≤ pnlFraction side entry current →
      checkPosition current side entry s = some CloseReason.stop_loss) := by
  unfold checkPosition evalExit
  refine ⟨fun h1 => ?_, fun h1 h2 => ?_, fun h1 _ => ?_⟩
  · rw [if_pos h1]
  · rw [if_neg (by linarith), if_pos h1]
  · rw [if_pos h1]

/-- Witness for C6: a long position entered at 100 with the default
settings auto-closes with reason stop_loss once the price reaches 95. -/
theorem monitor_exit_rules_witness :
    checkPosition 95 PosSide.long 100 defaultRiskSettings =
      some CloseReason.stop_loss :=
  (monitor_exit_rules 95 100 PosSide.long defaultRiskSettings).1
    (by norm_num [pnlFraction, defaultRiskSettings])

/-- The JSON body of a session-start (select-strategy) request.
Optional fields model keys a client may omit. -/
structure SelectStrategyBody where
  strategy_id : String
  auto_switch : Bool
  max_risk : ℚ
  trading_mode : Option String
  initial_capital : Option ℚ
deriving Repr, DecidableEq

/-- The request body built by the AIRecommendation page's
`selectStrategy` handler (src/unnamed/part_001, lines 137-143): it
sends only `strategy_id`, `auto_switch: true` and `max_risk: 0.05`,
omitting `trading_mode` and `initial_capital`. -/
def aiRecommendationSelectBody (strategy_id : String) : SelectStrategyBody :=
  { strategy_id := strategy_id
    auto_switch := true
    max_risk := 1/20
    trading_mode := none
    initial_capital := none }

/-- Strategy metadata echoed by a successful session start. -/
structure StrategyMeta where
  id : String
  name : String
  type : String
  started_at : String
deriving Repr, DecidableEq

/-- Response of the select-strategy endpoint: HTTP status, success
flag, strategy metadata, and the trading block (mode, initial
capital). -/
structure SelectResponse where
  httpStatus : Nat
  success : Bool
  strategy : Option StrategyMeta
  tradingMode : Option String
  tradingInitialCapital : Option ℚ
deriving Repr, DecidableEq

/-- Modelled from the spec: the POST /strategy/select handler — 409
when a session is already ACTIVE or STOPPING, 400 for an unknown
strategy id, otherwise success with the strategy metadata stamped
`started_at := now` and the trading block; an omitted trading_mode
defaults to "paper" and an omitted initial_capital to 1,000,000, per
TRADING_GUIDE.md (the backend route source is not under src/, only its
caller aiRecommendationAPI.selectStrategy in
src/frontend/src/services/api.js). -/
def selectStrategyEndpoint (st : TState) (known : List (String × StrategyMeta))
    (now : String) (b : SelectStrategyBody) : SelectResponse :=
  if st = TState.ACTIVE ∨ st = TState.STOPPING then
    { httpStatus := 409, success := false, strategy := none,
      tradingMode := none, tradingInitialCapital := none }
  else
    match known.find? (fun kv => kv.1 = b.strategy_id) with
    | none =>
      { httpStatus := 400, success := false, strategy := none,
        tradingMode := none, tradingInitialCapital := none }
    | some kv =>
      { httpStatus := 200, success := true
        strategy := some { kv.2 with started_at := now }
        tradingMode := some (b.trading_mode.getD "paper")
        tradingInitialCapital := some (b.initial_capital.getD 1000000) }

/-- C8 counterexample: the select-strategy request actually sent by the
AIRecommendation client carries neither trading_mode nor
initial_capital, refuting the claim that every select-strategy request
sent by a client includes them. -/
theorem select_body_counterexample :
    (aiRecommendationSelectBody "aggressive_buy_strategy").trading_mode = none ∧
    (aiRecommendationSelectBody "aggressive_buy_strategy").initial_capital =
      none ∧
    (aiRecommendationSelectBody "aggressive_buy_strategy").max_risk = 1/20 := by
  exact ⟨rfl, rfl, rfl⟩

/-- C8 (amended): the session-start endpoint accepts body
{strategy_id, auto_switch, max_risk, trading_mode, initial_capital},
fails with 409 when a session is ACTIVE or STOPPING and with 400 for an
unknown strategy, and otherwise succeeds with the strategy metadata and
the trading block; the AIRecommendation client, however, sends only
{strategy_id, auto_switch: true, max_risk: 0.05}, omitting
trading_mode and initial_capital, which the endpoint then defaults. -/
theorem select_strategy_endpoint_spec (st : TState)
    (known : List (String × StrategyMeta)) (now : String)
    (b : SelectStrategyBody) :
    (st = TState.ACTIVE ∨ st = TState.STOPPING →
      (selectStrategyEndpoint st known now b).httpStatus = 409 ∧
      (selectStrategyEndpoint st known now b).success = false) ∧
    (¬(st = TState.ACTIVE ∨ st = TState.STOPPING) →
      known.find? (fun kv => kv.1 = b.strategy_id) = none →
      (selectStrategyEndpoint st known now b).httpStatus = 400 ∧
      (selectStrategyEndpoint st known now b).success = false) ∧
    (∀ kv, ¬(st = TState.ACTIVE ∨ st = TState.STOPPING) →
      known.find? (fun kv0 => kv0.1 = b.strategy_id) = some kv →
      (selectStrategyEndpoint st known now b).success = true ∧
      (selectStrategyEndpoint st known now b).strategy =
        some { kv.2 with started_at := now } ∧
      (selectStrategyEndpoint st known now b).tradingMode =
        some (b.trading_mode.getD "paper") ∧
      (selectStrategyEndpoint st known now b).tradingInitialCapital =
        some (b.initial_capital.getD 1000000)) ∧
    (∀ sid, (aiRecommendationSelectBody sid).trading_mode = none ∧
      (aiRecommendationSelectBody sid).initial_capital = none ∧
      (aiRecommendationSelectBody sid).auto_switch = true ∧
      (aiRecommendationSelectBody sid).max_risk = 1/20) := by
  refine ⟨fun h => ?_, fun h hf => ?_, fun kv h hf => ?_,
    fun sid => ⟨rfl, rfl, rfl, rfl⟩⟩
  · unfold selectStrategyEndpoint
    rw [if_pos h]
    exact ⟨rfl, rfl⟩
  · unfold selectStrategyEndpoint
    rw [if_neg h, hf]
    exact ⟨rfl, rfl⟩
  · unfold selectStrategyEndpoint
    rw [if_neg h, hf]
    exact ⟨rfl, rfl, rfl, rfl⟩

/-- Witness for C8 (amended): an idle controller knowing one strategy
accepts the AIRecommendation client's request, defaulting the omitted
trading mode to paper and the capital to 1,000,000. -/
theorem select_strategy_endpoint_spec_witness :
    (selectStrategyEndpoint TState.IDLE
      [("aggressive_buy_strategy",
        { id := "aggressive_buy_strategy", name := "적극적 매수 전략",
          type := "momentum", started_at := "" })]
      "2025-10-01T12:30:00"
      (aiRecommendationSelectBody "aggressive_buy_strategy")).success = true ∧
    (selectStrategyEndpoint TState.IDLE
      [("aggressive_buy_strategy",
        { id := "aggressive_buy_strategy", name := "적극적 매수 전략",
          type := "momentum", started_at := "" })]
      "2025-10-01T12:30:00"
      (aiRecommendationSelectBody "aggressive_buy_strategy")).tradingMode =
      some "paper" := by
  have h := (select_strategy_endpoint_spec TState.IDLE
    [("aggressive_buy_strategy",
      { id := "aggressive_buy_strategy", name := "적극적 매수 전략",
        type := "momentum", started_at := "" })]
    "2025-10-01T12:30:00"
    (aiRecommendationSelectBody "aggressive_buy_strategy")).2.2.1
    ("aggressive_buy_strategy",
      { id := "aggressive_buy_strategy", name := "적극적 매수 전략",
        type := "momentum", started_at := "" })
    (by simp) (by simp [aiRecommendationSelectBody])
  exact ⟨h.1, h.2.2.1⟩

/-- An axios transport response: status plus the parsed body
(`response.data`). -/
structure AxiosResponse (α : Type) where
  status : Nat
  data : α

/-- An axios error as observed by the response interceptor; the field
models `error.response?.status` (none when the request never got a
response). -/
structure AxiosError where
  responseStatus : Option Nat
deriving Repr, DecidableEq

/-- Browser-visible state touched by the interceptor: the stored token
(localStorage) and the current location. -/
structure BrowserState where
  token : Option String
  location : String
deriving Repr, DecidableEq

/-- What a caller of the shared api client observes: a resolved value,
or a propagated rejection carrying the original error. -/
inductive ApiOutcome (α : Type) where
  | resolved (value : α)
  | rejected (e : AxiosError)

/-- The success branch of the response interceptor in
src/frontend/src/services/api.js (lines 30-33): it returns
`response.data`, not the transport response object. -/
def onResponseSuccess {α : Type} (response : AxiosResponse α) : α :=
  response.data

/-- The error branch of the response interceptor in
src/frontend/src/services/api.js (lines 34-42): on a 401 it removes the
stored token and redirects to /login, then rejects with the original
error; every other failure is rejected unchanged. -/
def onResponseError {α : Type} (e : AxiosError) (b : BrowserState) :
    ApiOutcome α × BrowserState :=
  if e.responseStatus = some 401 then
    (.rejected e, { token := none, location := "/login" })
  else
    (.rejected e, b)

/-- C9: the shared api client resolves a successful response to its
parsed body; a 401 failure clears the stored token and redirects the
browser to /login before propagating the original rejection; every
other failure is propagated unchanged with the browser state
untouched. -/
theorem api_interceptor_spec (r : AxiosResponse ℚ) (e : AxiosError)
    (b : BrowserState) :
    onResponseSuccess r = r.data ∧
    (e.responseStatus = some 401 →
      onResponseError (α := ℚ) e b =
        (.rejected e, { token := none, location := "/login" })) ∧
    (e.responseStatus ≠ some 401 →
      onResponseError (α := ℚ) e b = (.rejected e, b)) := by
  refine ⟨rfl, fun h => ?_, fun h => ?_⟩
  · unfold onResponseError
    rw [if_pos h]
  · unfold onResponseError
    rw [if_neg h]

/-- Witness for C9: a 401 error with a token stored clears it and lands
on /login, carrying the original error through. -/
theorem api_interceptor_spec_witness :
    onResponseError (α := ℚ) { responseStatus := some 401 }
      { token := some "jwt", location := "/dashboard" } =
      (.rejected { responseStatus := some 401 },
       { token := none, location := "/login" }) :=
  (api_interceptor_spec { status := 200, data := 0 }
    { responseStatus := some 401 }
    { token := some "jwt", location := "/dashboard" }).2.1 rfl

/-- Display configuration of an antd status Tag: the object-literal
values of `statusConfig`. -/
structure TagConfig where
  color : String
  text : String
deriving Repr, DecidableEq

/-- The property names a plain JavaScript object literal inherits from
`Object.prototype`; bracket lookup with one of these names returns the
inherited member (a function, or `Object.prototype` itself for
__proto__), which is truthy. -/
def objectProtoMembers : List String :=
  ["constructor", "hasOwnProperty", "isPrototypeOf", "propertyIsEnumerable",
   "toLocaleString", "toString", "valueOf", "__proto__",
   "__defineGetter__", "__defineSetter__", "__lookupGetter__",
   "__lookupSetter__"]

/-- Result of the JavaScript bracket lookup `statusConfig[status]`: an
own data property (one of the four config objects), a truthy member
inherited from `Object.prototype`, or `undefined`. -/
inductive JsLookup where
  | own (cfg : TagConfig)
  | inherited
  | missing
deriving Repr, DecidableEq

/-- The `statusConfig` object literal used by both trade-table status
renderers of the Monitoring page (src/unnamed/part_002, lines 799-813
and 1617-1631), embedded with JavaScript lookup semantics: the four own
keys yield their configurations, a name of an inherited
`Object.prototype` member yields that (truthy) member, anything else is
`undefined`. -/
def statusConfig (status : String) : JsLookup :=
  if status = "filled" then .own { color := "success", text := "체결" }
  else if status = "pending" then .own { color := "processing", text := "대기" }
  else if status = "cancelled" then .own { color := "default", text := "취소" }
  else if status = "error" then .own { color := "error", text := "오류" }
  else if status ∈ objectProtoMembers then .inherited
  else .missing

/-- The props of the rendered antd Tag; `none` models the JavaScript
`undefined` obtained by reading `.color` / `.text` off an inherited
`Object.prototype` member. -/
structure RenderedTag where
  color : Option String
  text : Option String
deriving Repr, DecidableEq

/-- The Tag rendered from the pending configuration. -/
def pendingTag : RenderedTag :=
  { color := some "processing", text := some "대기" }

/-- The status cell renderer:
`const config = statusConfig[status] || statusConfig.pending` followed
by a Tag with config.color and config.text.  An own config renders its
color and text; an inherited `Object.prototype` member is truthy, so
the `||` fallback is skipped and both props come out `undefined`; only
a falsy (`undefined`) lookup falls back to the pending config. -/
def renderStatusTag (status : String) : RenderedTag :=
  match statusConfig status with
  | .own cfg => { color := some cfg.color, text := some cfg.text }
  | .inherited => { color := none, text := none }
  | .missing => pendingTag

/-- C10 counterexample: the status string "toString" is outside
{filled, pending, cancelled, error}, yet `statusConfig["toString"]` is
the truthy inherited `Object.prototype.toString`, so the renderer does
not fall back to the pending configuration — it renders a Tag with
undefined color and text. -/
theorem status_render_counterexample :
    "toString" ≠ "filled" ∧ "toString" ≠ "pending" ∧
    "toString" ≠ "cancelled" ∧ "toString" ≠ "error" ∧
    renderStatusTag "toString" ≠ pendingTag ∧
    renderStatusTag "toString" = { color := none, text := none } := by
  refine ⟨by decide, by decide, by decide, by decide, by decide, by decide⟩

/-- C10 (amended): a status outside {filled, pending, cancelled, error}
that does not name an inherited `Object.prototype` member renders with
the pending configuration; a status naming such an inherited member
skips the fallback and renders a Tag with undefined color and text; in
every case the renderer is total — it always produces a Tag and never
fails on an unknown status string. -/
theorem status_render_total (status : String) :
    (status ≠ "filled" → status ≠ "pending" → status ≠ "cancelled" →
      status ≠ "error" → status ∉ objectProtoMembers →
      renderStatusTag status = pendingTag) ∧
    (status ∈ objectProtoMembers →
      renderStatusTag status = { color := none, text := none }) ∧
    (renderStatusTag status = { color := some "success", text := some "체결" } ∨
     renderStatusTag status = pendingTag ∨
     renderStatusTag status = { color := some "default", text := some "취소" } ∨
     renderStatusTag status = { color := some "error", text := some "오류" } ∨
     renderStatusTag status = { color := none, text := none }) := by
  refine ⟨?_, ?_, ?_⟩
  · intro h1 h2 h3 h4 h5
    unfold renderStatusTag statusConfig
    rw [if_neg h1, if_neg h2, if_neg h3, if_neg h4, if_neg h5]
  · intro h
    simp only [objectProtoMembers, List.mem_cons, List.not_mem_nil, or_false] at h
    rcases h with rfl | rfl | rfl | rfl | rfl | rfl | rfl | rfl | rfl | rfl |
      rfl | rfl <;> decide
  · unfold renderStatusTag statusConfig
    by_cases h1 : status = "filled"
    · rw [if_pos h1]; left; rfl
    rw [if_neg h1]
    by_cases h2 : status = "pending"
    · rw [if_pos h2]; right; left; rfl
    rw [if_neg h2]
    by_cases h3 : status = "cancelled"
    · rw [if_pos h3]; right; right; left; rfl
    rw [if_neg h3]
    by_cases h4 : status = "error"
    · rw [if_pos h4]; right; right; right; left; rfl
    rw [if_neg h4]
    by_cases h5 : status ∈ objectProtoMembers
    · rw [if_pos h5]; right; right; right; right; rfl
    · rw [if_neg h5]; right; left; rfl

/-- Witness for C10 (amended): the unknown status "settled" is neither
an own key nor an inherited member name and renders with the pending
configuration. -/
theorem status_render_total_witness :
    renderStatusTag "settled" = pendingTag :=
  (status_render_total "settled").1 (by decide) (by decide) (by decide)
    (by decide) (by decide)
